import Mathlib

/-!
Shallow embedding of the rspamd chartable plugin
(src/src/plugins/chartable.c): the confusable-character table, the two
word scorers (Unicode path and byte path), and the three
aggregation/detection entry points (body parts, subject, URL/email
hostnames).  Floating-point badness values are modelled as rationals;
every arithmetic operation performed by the C code on doubles is exact
on the values reachable in the statements below except for penalties of
the form 1/n, whose rounding never affects any comparison made here.
-/

namespace Chartable

/-- Module configuration, from struct chartable_ctx in chartable.c. -/
structure ChartableCtx where
  symbol : String
  urlSymbol : String
  threshold : Rat
  maxWordLen : Nat
deriving DecidableEq, Repr

/-- Default option values from chartable.c: DEFAULT_SYMBOL,
DEFAULT_URL_SYMBOL, DEFAULT_THRESHOLD, and max_word_len = 10 set in
chartable_module_init. -/
def defaultCtx : ChartableCtx :=
  { symbol := "R_MIXED_CHARSET", urlSymbol := "R_MIXED_CHARSET_URL",
    threshold := 1/10, maxWordLen := 10 }

/-- A detection reported through rspamd_task_insert_result:
symbol name, score, optional context label. -/
structure Detection where
  symbol : String
  score : Rat
  label : Option String
deriving DecidableEq, Repr

/-- The literal table latin_confusable from chartable.c. -/
def latin_confusable : List Nat := [
  0x02028, 0x02029, 0x01680, 0x02000, 0x02001, 0x02002, 0x02003, 0x02004, 0x02005, 0x02006,
  0x02008, 0x02009, 0x0200a, 0x0205f, 0x000a0, 0x02007, 0x0202f, 0x007fa, 0x0fe4d, 0x0fe4e,
  0x0fe4f, 0x02010, 0x02011, 0x02012, 0x02013, 0x0fe58, 0x006d4, 0x02043, 0x002d7, 0x02212,
  0x02796, 0x02cba, 0x0060d, 0x0066b, 0x0201a, 0x000b8, 0x0a4f9, 0x0037e, 0x00903, 0x00a83,
  0x0ff1a, 0x00589, 0x00703, 0x00704, 0x016ec, 0x0fe30, 0x01803, 0x01809, 0x0205a, 0x005c3,
  0x002f8, 0x0a789, 0x02236, 0x002d0, 0x0a4fd, 0x0ff01, 0x001c3, 0x02d51, 0x00294, 0x00241,
  0x0097d, 0x013ae, 0x0a6eb, 0x1d16d, 0x02024, 0x00701, 0x00702, 0x0a60e, 0x10a50, 0x00660,
  0x006f0, 0x0a4f8, 0x0055d, 0x0ff07, 0x02018, 0x02019, 0x0201b, 0x02032, 0x02035, 0x0055a,
  0x005f3, 0x00060, 0x01fef, 0x0ff40, 0x000b4, 0x00384, 0x01ffd, 0x01fbd, 0x01fbf, 0x01ffe,
  0x002b9, 0x00374, 0x002c8, 0x002ca, 0x002cb, 0x002f4, 0x002bb, 0x002bd, 0x002bc, 0x002be,
  0x0a78c, 0x005d9, 0x007f4, 0x007f5, 0x0144a, 0x016cc, 0x16f51, 0x16f52, 0x0ff3b, 0x02768,
  0x02772, 0x03014, 0x0fd3e, 0x0ff3d, 0x02769, 0x02773, 0x03015, 0x0fd3f, 0x02774, 0x1d114,
  0x02775, 0x0204e, 0x0066d, 0x02217, 0x1031f, 0x01735, 0x02041, 0x02215, 0x02044, 0x02571,
  0x027cb, 0x029f8, 0x1d23a, 0x031d3, 0x03033, 0x02cc6, 0x030ce, 0x04e3f, 0x02f03, 0x0ff3c,
  0x0fe68, 0x02216, 0x027cd, 0x029f5, 0x029f9, 0x1d20f, 0x1d23b, 0x031d4, 0x04e36, 0x02f02,
  0x0a778, 0x002c4, 0x002c6, 0x016ed, 0x02795, 0x1029b, 0x02039, 0x0276e, 0x002c2, 0x1d236,
  0x01438, 0x016b2, 0x01400, 0x02e40, 0x030a0, 0x0a4ff, 0x0203a, 0x0276f, 0x002c3, 0x1d237,
  0x01433, 0x16f3f, 0x02053, 0x002dc, 0x01fc0, 0x0223c, 0x1d7d0, 0x1d7da, 0x1d7e4, 0x1d7ee,
  0x1d7f8, 0x0a75a, 0x001a7, 0x003e8, 0x0a644, 0x014bf, 0x0a6ef, 0x1d206, 0x1d7d1, 0x1d7db,
  0x1d7e5, 0x1d7ef, 0x1d7f9, 0x0a7ab, 0x0021c, 0x001b7, 0x0a76a, 0x02ccc, 0x00417, 0x004e0,
  0x16f3b, 0x118ca, 0x1d7d2, 0x1d7dc, 0x1d7e6, 0x1d7f0, 0x1d7fa, 0x013ce, 0x118af, 0x1d7d3,
  0x1d7dd, 0x1d7e7, 0x1d7f1, 0x1d7fb, 0x001bc, 0x118bb, 0x1d7d4, 0x1d7de, 0x1d7e8, 0x1d7f2,
  0x1d7fc, 0x02cd2, 0x00431, 0x013ee, 0x118d5, 0x1d212, 0x1d7d5, 0x1d7df, 0x1d7e9, 0x1d7f3,
  0x1d7fd, 0x104d2, 0x118c6, 0x00b03, 0x009ea, 0x00a6a, 0x1e8cb, 0x1d7d6, 0x1d7e0, 0x1d7ea,
  0x1d7f4, 0x1d7fe, 0x00223, 0x00222, 0x1031a, 0x00a67, 0x00b68, 0x009ed, 0x00d6d, 0x1d7d7,
  0x1d7e1, 0x1d7eb, 0x1d7f5, 0x1d7ff, 0x0a76e, 0x02cca, 0x118cc, 0x118ac, 0x118d6, 0x0237a,
  0x0ff41, 0x1d41a, 0x1d44e, 0x1d482, 0x1d4b6, 0x1d4ea, 0x1d51e, 0x1d552, 0x1d586, 0x1d5ba,
  0x1d5ee, 0x1d622, 0x1d656, 0x1d68a, 0x00251, 0x003b1, 0x1d6c2, 0x1d6fc, 0x1d736, 0x1d770,
  0x1d7aa, 0x00430, 0x0ff21, 0x1d400, 0x1d434, 0x1d468, 0x1d49c, 0x1d4d0, 0x1d504, 0x1d538,
  0x1d56c, 0x1d5a0, 0x1d5d4, 0x1d608, 0x1d63c, 0x1d670, 0x00391, 0x1d6a8, 0x1d6e2, 0x1d71c,
  0x1d756, 0x1d790, 0x00410, 0x013aa, 0x015c5, 0x0a4ee, 0x16f40, 0x102a0, 0x1d41b, 0x1d44f,
  0x1d483, 0x1d4b7, 0x1d4eb, 0x1d51f, 0x1d553, 0x1d587, 0x1d5bb, 0x1d5ef, 0x1d623, 0x1d657,
  0x1d68b, 0x00184, 0x0042c, 0x013cf, 0x015af, 0x0ff22, 0x0212c, 0x1d401, 0x1d435, 0x1d469,
  0x1d4d1, 0x1d505, 0x1d539, 0x1d56d, 0x1d5a1, 0x1d5d5, 0x1d609, 0x1d63d, 0x1d671, 0x0a7b4,
  0x00392, 0x1d6a9, 0x1d6e3, 0x1d71d, 0x1d757, 0x1d791, 0x00412, 0x013f4, 0x015f7, 0x0a4d0,
  0x10282, 0x102a1, 0x10301, 0x0ff43, 0x0217d, 0x1d41c, 0x1d450, 0x1d484, 0x1d4b8, 0x1d4ec,
  0x1d520, 0x1d554, 0x1d588, 0x1d5bc, 0x1d5f0, 0x1d624, 0x1d658, 0x1d68c, 0x01d04, 0x003f2,
  0x02ca5, 0x00441, 0x0abaf, 0x1043d, 0x1f74c, 0x118f2, 0x118e9, 0x0ff23, 0x0216d, 0x02102,
  0x0212d, 0x1d402, 0x1d436, 0x1d46a, 0x1d49e, 0x1d4d2, 0x1d56e, 0x1d5a2, 0x1d5d6, 0x1d60a,
  0x1d63e, 0x1d672, 0x003f9, 0x02ca4, 0x00421, 0x013df, 0x0a4da, 0x102a2, 0x10302, 0x10415,
  0x1051c, 0x0217e, 0x02146, 0x1d41d, 0x1d451, 0x1d485, 0x1d4b9, 0x1d4ed, 0x1d521, 0x1d555,
  0x1d589, 0x1d5bd, 0x1d5f1, 0x1d625, 0x1d659, 0x1d68d, 0x00501, 0x013e7, 0x0146f, 0x0a4d2,
  0x0216e, 0x02145, 0x1d403, 0x1d437, 0x1d46b, 0x1d49f, 0x1d4d3, 0x1d507, 0x1d53b, 0x1d56f,
  0x1d5a3, 0x1d5d7, 0x1d60b, 0x1d63f, 0x1d673, 0x013a0, 0x015de, 0x015ea, 0x0a4d3, 0x0212e,
  0x0ff45, 0x0212f, 0x02147, 0x1d41e, 0x1d452, 0x1d486, 0x1d4ee, 0x1d522, 0x1d556, 0x1d58a,
  0x1d5be, 0x1d5f2, 0x1d626, 0x1d65a, 0x1d68e, 0x0ab32, 0x00435, 0x004bd, 0x022ff, 0x0ff25,
  0x02130, 0x1d404, 0x1d438, 0x1d46c, 0x1d4d4, 0x1d508, 0x1d53c, 0x1d570, 0x1d5a4, 0x1d5d8,
  0x1d60c, 0x1d640, 0x1d674, 0x00395, 0x1d6ac, 0x1d6e6, 0x1d720, 0x1d75a, 0x1d794, 0x00415,
  0x02d39, 0x013ac, 0x0a4f0, 0x118a6, 0x118ae, 0x10286, 0x1d41f, 0x1d453, 0x1d487, 0x1d4bb,
  0x1d4ef, 0x1d523, 0x1d557, 0x1d58b, 0x1d5bf, 0x1d5f3, 0x1d627, 0x1d65b, 0x1d68f, 0x0ab35,
  0x0a799, 0x0017f, 0x01e9d, 0x00584, 0x1d213, 0x02131, 0x1d405, 0x1d439, 0x1d46d, 0x1d4d5,
  0x1d509, 0x1d53d, 0x1d571, 0x1d5a5, 0x1d5d9, 0x1d60d, 0x1d641, 0x1d675, 0x0a798, 0x003dc,
  0x1d7ca, 0x015b4, 0x0a4dd, 0x118c2, 0x118a2, 0x10287, 0x102a5, 0x10525, 0x0ff47, 0x0210a,
  0x1d420, 0x1d454, 0x1d488, 0x1d4f0, 0x1d524, 0x1d558, 0x1d58c, 0x1d5c0, 0x1d5f4, 0x1d628,
  0x1d65c, 0x1d690, 0x00261, 0x01d83, 0x0018d, 0x00581, 0x1d406, 0x1d43a, 0x1d46e, 0x1d4a2,
  0x1d4d6, 0x1d50a, 0x1d53e, 0x1d572, 0x1d5a6, 0x1d5da, 0x1d60e, 0x1d642, 0x1d676, 0x0050c,
  0x013c0, 0x013f3, 0x0a4d6, 0x0ff48, 0x0210e, 0x1d421, 0x1d489, 0x1d4bd, 0x1d4f1, 0x1d525,
  0x1d559, 0x1d58d, 0x1d5c1, 0x1d5f5, 0x1d629, 0x1d65d, 0x1d691, 0x004bb, 0x00570, 0x013c2,
  0x0ff28, 0x0210b, 0x0210c, 0x0210d, 0x1d407, 0x1d43b, 0x1d46f, 0x1d4d7, 0x1d573, 0x1d5a7,
  0x1d5db, 0x1d60f, 0x1d643, 0x1d677, 0x00397, 0x1d6ae, 0x1d6e8, 0x1d722, 0x1d75c, 0x1d796,
  0x02c8e, 0x0041d, 0x013bb, 0x0157c, 0x0a4e7, 0x102cf, 0x002db, 0x02373, 0x0ff49, 0x02170,
  0x02139, 0x02148, 0x1d422, 0x1d456, 0x1d48a, 0x1d4be, 0x1d4f2, 0x1d526, 0x1d55a, 0x1d58e,
  0x1d5c2, 0x1d5f6, 0x1d62a, 0x1d65e, 0x1d692, 0x00131, 0x1d6a4, 0x0026a, 0x00269, 0x003b9,
  0x01fbe, 0x0037a, 0x1d6ca, 0x1d704, 0x1d73e, 0x1d778, 0x1d7b2, 0x00456, 0x0a647, 0x004cf,
  0x0ab75, 0x013a5, 0x118c3, 0x0ff4a, 0x02149, 0x1d423, 0x1d457, 0x1d48b, 0x1d4bf, 0x1d4f3,
  0x1d527, 0x1d55b, 0x1d58f, 0x1d5c3, 0x1d5f7, 0x1d62b, 0x1d65f, 0x1d693, 0x003f3, 0x00458,
  0x0ff2a, 0x1d409, 0x1d43d, 0x1d471, 0x1d4a5, 0x1d4d9, 0x1d50d, 0x1d541, 0x1d575, 0x1d5a9,
  0x1d5dd, 0x1d611, 0x1d645, 0x1d679, 0x0a7b2, 0x0037f, 0x00408, 0x013ab, 0x0148d, 0x0a4d9,
  0x1d424, 0x1d458, 0x1d48c, 0x1d4c0, 0x1d4f4, 0x1d528, 0x1d55c, 0x1d590, 0x1d5c4, 0x1d5f8,
  0x1d62c, 0x1d660, 0x1d694, 0x0212a, 0x0ff2b, 0x1d40a, 0x1d43e, 0x1d472, 0x1d4a6, 0x1d4da,
  0x1d50e, 0x1d542, 0x1d576, 0x1d5aa, 0x1d5de, 0x1d612, 0x1d646, 0x1d67a, 0x0039a, 0x1d6b1,
  0x1d6eb, 0x1d725, 0x1d75f, 0x1d799, 0x02c94, 0x0041a, 0x013e6, 0x016d5, 0x0a4d7, 0x10518,
  0x005c0, 0x0007c, 0x02223, 0x023fd, 0x0ffe8, 0x00031, 0x00661, 0x006f1, 0x10320, 0x1e8c7,
  0x1d7cf, 0x1d7d9, 0x1d7e3, 0x1d7ed, 0x1d7f7, 0x00049, 0x0ff29, 0x02160, 0x02110, 0x02111,
  0x1d408, 0x1d43c, 0x1d470, 0x1d4d8, 0x1d540, 0x1d574, 0x1d5a8, 0x1d5dc, 0x1d610, 0x1d644,
  0x1d678, 0x00196, 0x0ff4c, 0x0217c, 0x02113, 0x1d425, 0x1d459, 0x1d48d, 0x1d4c1, 0x1d4f5,
  0x1d529, 0x1d55d, 0x1d591, 0x1d5c5, 0x1d5f9, 0x1d62d, 0x1d661, 0x1d695, 0x001c0, 0x00399,
  0x1d6b0, 0x1d6ea, 0x1d724, 0x1d75e, 0x1d798, 0x02c92, 0x00406, 0x004c0, 0x005d5, 0x005df,
  0x00627, 0x1ee00, 0x1ee80, 0x0fe8e, 0x0fe8d, 0x007ca, 0x02d4f, 0x016c1, 0x0a4f2, 0x16f28,
  0x1028a, 0x10309, 0x1d22a, 0x0216c, 0x02112, 0x1d40b, 0x1d43f, 0x1d473, 0x1d4db, 0x1d50f,
  0x1d543, 0x1d577, 0x1d5ab, 0x1d5df, 0x1d613, 0x1d647, 0x1d67b, 0x02cd0, 0x013de, 0x014aa,
  0x0a4e1, 0x16f16, 0x118a3, 0x118b2, 0x1041b, 0x10526, 0x0ff2d, 0x0216f, 0x02133, 0x1d40c,
  0x1d440, 0x1d474, 0x1d4dc, 0x1d510, 0x1d544, 0x1d578, 0x1d5ac, 0x1d5e0, 0x1d614, 0x1d648,
  0x1d67c, 0x0039c, 0x1d6b3, 0x1d6ed, 0x1d727, 0x1d761, 0x1d79b, 0x003fa, 0x02c98, 0x0041c,
  0x013b7, 0x015f0, 0x016d6, 0x0a4df, 0x102b0, 0x10311, 0x1d427, 0x1d45b, 0x1d48f, 0x1d4c3,
  0x1d4f7, 0x1d52b, 0x1d55f, 0x1d593, 0x1d5c7, 0x1d5fb, 0x1d62f, 0x1d663, 0x1d697, 0x00578,
  0x0057c, 0x0ff2e, 0x02115, 0x1d40d, 0x1d441, 0x1d475, 0x1d4a9, 0x1d4dd, 0x1d511, 0x1d579,
  0x1d5ad, 0x1d5e1, 0x1d615, 0x1d649, 0x1d67d, 0x0039d, 0x1d6b4, 0x1d6ee, 0x1d728, 0x1d762,
  0x1d79c, 0x02c9a, 0x0a4e0, 0x10513, 0x00c02, 0x00c82, 0x00d02, 0x00d82, 0x00966, 0x00a66,
  0x00ae6, 0x00be6, 0x00c66, 0x00ce6, 0x00d66, 0x00e50, 0x00ed0, 0x01040, 0x00665, 0x006f5,
  0x0ff4f, 0x02134, 0x1d428, 0x1d45c, 0x1d490, 0x1d4f8, 0x1d52c, 0x1d560, 0x1d594, 0x1d5c8,
  0x1d5fc, 0x1d630, 0x1d664, 0x1d698, 0x01d0f, 0x01d11, 0x0ab3d, 0x003bf, 0x1d6d0, 0x1d70a,
  0x1d744, 0x1d77e, 0x1d7b8, 0x003c3, 0x1d6d4, 0x1d70e, 0x1d748, 0x1d782, 0x1d7bc, 0x02c9f,
  0x0043e, 0x010ff, 0x00585, 0x005e1, 0x00647, 0x1ee24, 0x1ee64, 0x1ee84, 0x0feeb, 0x0feec,
  0x0feea, 0x0fee9, 0x006be, 0x0fbac, 0x0fbad, 0x0fbab, 0x0fbaa, 0x006c1, 0x0fba8, 0x0fba9,
  0x0fba7, 0x0fba6, 0x006d5, 0x00d20, 0x0101d, 0x104ea, 0x118c8, 0x118d7, 0x1042c, 0x00030,
  0x007c0, 0x009e6, 0x00b66, 0x03007, 0x114d0, 0x118e0, 0x1d7ce, 0x1d7d8, 0x1d7e2, 0x1d7ec,
  0x1d7f6, 0x0ff2f, 0x1d40e, 0x1d442, 0x1d476, 0x1d4aa, 0x1d4de, 0x1d512, 0x1d546, 0x1d57a,
  0x1d5ae, 0x1d5e2, 0x1d616, 0x1d64a, 0x1d67e, 0x0039f, 0x1d6b6, 0x1d6f0, 0x1d72a, 0x1d764,
  0x1d79e, 0x02c9e, 0x0041e, 0x00555, 0x02d54, 0x012d0, 0x00b20, 0x104c2, 0x0a4f3, 0x118b5,
  0x10292, 0x102ab, 0x10404, 0x10516, 0x02374, 0x0ff50, 0x1d429, 0x1d45d, 0x1d491, 0x1d4c5,
  0x1d4f9, 0x1d52d, 0x1d561, 0x1d595, 0x1d5c9, 0x1d5fd, 0x1d631, 0x1d665, 0x1d699, 0x003c1,
  0x003f1, 0x1d6d2, 0x1d6e0, 0x1d70c, 0x1d71a, 0x1d746, 0x1d754, 0x1d780, 0x1d78e, 0x1d7ba,
  0x1d7c8, 0x02ca3, 0x00440, 0x0ff30, 0x02119, 0x1d40f, 0x1d443, 0x1d477, 0x1d4ab, 0x1d4df,
  0x1d513, 0x1d57b, 0x1d5af, 0x1d5e3, 0x1d617, 0x1d64b, 0x1d67f, 0x003a1, 0x1d6b8, 0x1d6f2,
  0x1d72c, 0x1d766, 0x1d7a0, 0x02ca2, 0x00420, 0x013e2, 0x0146d, 0x0a4d1, 0x10295, 0x1d42a,
  0x1d45e, 0x1d492, 0x1d4c6, 0x1d4fa, 0x1d52e, 0x1d562, 0x1d596, 0x1d5ca, 0x1d5fe, 0x1d632,
  0x1d666, 0x1d69a, 0x0051b, 0x00563, 0x00566, 0x0211a, 0x1d410, 0x1d444, 0x1d478, 0x1d4ac,
  0x1d4e0, 0x1d514, 0x1d57c, 0x1d5b0, 0x1d5e4, 0x1d618, 0x1d64c, 0x1d680, 0x02d55, 0x1d42b,
  0x1d45f, 0x1d493, 0x1d4c7, 0x1d4fb, 0x1d52f, 0x1d563, 0x1d597, 0x1d5cb, 0x1d5ff, 0x1d633,
  0x1d667, 0x1d69b, 0x0ab47, 0x0ab48, 0x01d26, 0x02c85, 0x00433, 0x0ab81, 0x1d216, 0x0211b,
  0x0211c, 0x0211d, 0x1d411, 0x1d445, 0x1d479, 0x1d4e1, 0x1d57d, 0x1d5b1, 0x1d5e5, 0x1d619,
  0x1d64d, 0x1d681, 0x001a6, 0x013a1, 0x013d2, 0x104b4, 0x01587, 0x0a4e3, 0x16f35, 0x0ff53,
  0x1d42c, 0x1d460, 0x1d494, 0x1d4c8, 0x1d4fc, 0x1d530, 0x1d564, 0x1d598, 0x1d5cc, 0x1d600,
  0x1d634, 0x1d668, 0x1d69c, 0x0a731, 0x001bd, 0x00455, 0x0abaa, 0x118c1, 0x10448, 0x0ff33,
  0x1d412, 0x1d446, 0x1d47a, 0x1d4ae, 0x1d4e2, 0x1d516, 0x1d54a, 0x1d57e, 0x1d5b2, 0x1d5e6,
  0x1d61a, 0x1d64e, 0x1d682, 0x00405, 0x0054f, 0x013d5, 0x013da, 0x0a4e2, 0x16f3a, 0x10296,
  0x10420, 0x1d42d, 0x1d461, 0x1d495, 0x1d4c9, 0x1d4fd, 0x1d531, 0x1d565, 0x1d599, 0x1d5cd,
  0x1d601, 0x1d635, 0x1d669, 0x1d69d, 0x022a4, 0x027d9, 0x1f768, 0x0ff34, 0x1d413, 0x1d447,
  0x1d47b, 0x1d4af, 0x1d4e3, 0x1d517, 0x1d54b, 0x1d57f, 0x1d5b3, 0x1d5e7, 0x1d61b, 0x1d64f,
  0x1d683, 0x003a4, 0x1d6bb, 0x1d6f5, 0x1d72f, 0x1d769, 0x1d7a3, 0x02ca6, 0x00422, 0x013a2,
  0x0a4d4, 0x16f0a, 0x118bc, 0x10297, 0x102b1, 0x10315, 0x1d42e, 0x1d462, 0x1d496, 0x1d4ca,
  0x1d4fe, 0x1d532, 0x1d566, 0x1d59a, 0x1d5ce, 0x1d602, 0x1d636, 0x1d66a, 0x1d69e, 0x0a79f,
  0x01d1c, 0x0ab4e, 0x0ab52, 0x0028b, 0x003c5, 0x1d6d6, 0x1d710, 0x1d74a, 0x1d784, 0x1d7be,
  0x0057d, 0x104f6, 0x118d8, 0x0222a, 0x022c3, 0x1d414, 0x1d448, 0x1d47c, 0x1d4b0, 0x1d4e4,
  0x1d518, 0x1d54c, 0x1d580, 0x1d5b4, 0x1d5e8, 0x1d61c, 0x1d650, 0x1d684, 0x0054d, 0x01200,
  0x104ce, 0x0144c, 0x0a4f4, 0x16f42, 0x118b8, 0x02228, 0x022c1, 0x0ff56, 0x02174, 0x1d42f,
  0x1d463, 0x1d497, 0x1d4cb, 0x1d4ff, 0x1d533, 0x1d567, 0x1d59b, 0x1d5cf, 0x1d603, 0x1d637,
  0x1d66b, 0x1d69f, 0x01d20, 0x003bd, 0x1d6ce, 0x1d708, 0x1d742, 0x1d77c, 0x1d7b6, 0x00475,
  0x005d8, 0x11706, 0x0aba9, 0x118c0, 0x1d20d, 0x00667, 0x006f7, 0x02164, 0x1d415, 0x1d449,
  0x1d47d, 0x1d4b1, 0x1d4e5, 0x1d519, 0x1d54d, 0x1d581, 0x1d5b5, 0x1d5e9, 0x1d61d, 0x1d651,
  0x1d685, 0x00474, 0x02d38, 0x013d9, 0x0142f, 0x0a6df, 0x0a4e6, 0x16f08, 0x118a0, 0x1051d,
  0x0026f, 0x1d430, 0x1d464, 0x1d498, 0x1d4cc, 0x1d500, 0x1d534, 0x1d568, 0x1d59c, 0x1d5d0,
  0x1d604, 0x1d638, 0x1d66c, 0x1d6a0, 0x01d21, 0x00461, 0x0051d, 0x00561, 0x1170a, 0x1170e,
  0x1170f, 0x0ab83, 0x118ef, 0x118e6, 0x1d416, 0x1d44a, 0x1d47e, 0x1d4b2, 0x1d4e6, 0x1d51a,
  0x1d54e, 0x1d582, 0x1d5b6, 0x1d5ea, 0x1d61e, 0x1d652, 0x1d686, 0x0051c, 0x013b3, 0x013d4,
  0x0a4ea, 0x0166e, 0x000d7, 0x0292b, 0x0292c, 0x02a2f, 0x0ff58, 0x02179, 0x1d431, 0x1d465,
  0x1d499, 0x1d4cd, 0x1d501, 0x1d535, 0x1d569, 0x1d59d, 0x1d5d1, 0x1d605, 0x1d639, 0x1d66d,
  0x1d6a1, 0x00445, 0x01541, 0x0157d, 0x0166d, 0x02573, 0x10322, 0x118ec, 0x0ff38, 0x02169,
  0x1d417, 0x1d44b, 0x1d47f, 0x1d4b3, 0x1d4e7, 0x1d51b, 0x1d54f, 0x1d583, 0x1d5b7, 0x1d5eb,
  0x1d61f, 0x1d653, 0x1d687, 0x0a7b3, 0x003a7, 0x1d6be, 0x1d6f8, 0x1d732, 0x1d76c, 0x1d7a6,
  0x02cac, 0x00425, 0x02d5d, 0x016b7, 0x0a4eb, 0x10290, 0x102b4, 0x10317, 0x10527, 0x00263,
  0x01d8c, 0x0ff59, 0x1d432, 0x1d466, 0x1d49a, 0x1d4ce, 0x1d502, 0x1d536, 0x1d56a, 0x1d59e,
  0x1d5d2, 0x1d606, 0x1d63a, 0x1d66e, 0x1d6a2, 0x0028f, 0x01eff, 0x0ab5a, 0x003b3, 0x0213d,
  0x1d6c4, 0x1d6fe, 0x1d738, 0x1d772, 0x1d7ac, 0x00443, 0x004af, 0x010e7, 0x118dc, 0x0ff39,
  0x1d418, 0x1d44c, 0x1d480, 0x1d4b4, 0x1d4e8, 0x1d51c, 0x1d550, 0x1d584, 0x1d5b8, 0x1d5ec,
  0x1d620, 0x1d654, 0x1d688, 0x003a5, 0x003d2, 0x1d6bc, 0x1d6f6, 0x1d730, 0x1d76a, 0x1d7a4,
  0x02ca8, 0x00423, 0x004ae, 0x013a9, 0x013bd, 0x0a4ec, 0x16f43, 0x118a4, 0x102b2, 0x1d433,
  0x1d467, 0x1d49b, 0x1d4cf, 0x1d503, 0x1d537, 0x1d56b, 0x1d59f, 0x1d5d3, 0x1d607, 0x1d63b,
  0x1d66f, 0x1d6a3, 0x01d22, 0x0ab93, 0x118c4, 0x102f5, 0x118e5, 0x0ff3a, 0x02124, 0x02128,
  0x1d419, 0x1d44d, 0x1d481, 0x1d4b5, 0x1d4e9, 0x1d585, 0x1d5b9, 0x1d5ed, 0x1d621, 0x1d655,
  0x1d689, 0x00396, 0x1d6ad, 0x1d6e7, 0x1d721, 0x1d75b, 0x1d795, 0x013c3, 0x0a4dc, 0x118a9
]

/-- Membership test of chartable.c, function rspamd_can_alias_latin
(the hash table holds exactly the entries of latin_confusable). -/
def rspamd_can_alias_latin (ch : Nat) : Bool :=
  latin_confusable.contains ch

/-- ICU block code UBLOCK_BASIC_LATIN. -/
def UBLOCK_BASIC_LATIN : Nat := 1

/-- ICU block code UBLOCK_COMBINING_DIACRITICAL_MARKS. -/
def UBLOCK_COMBINING_DIACRITICAL_MARKS : Nat := 7

/-- ICU block code UBLOCK_LATIN_EXTENDED_ADDITIONAL. -/
def UBLOCK_LATIN_EXTENDED_ADDITIONAL : Nat := 29

/-- The block collapsing done in rspamd_chartable_process_word_utf:
latin, IPA, diacritic and space-modifier blocks (and the
Latin-Extended-Additional block) are treated as basic latin. -/
def collapseBlock (sc : Nat) : Nat :=
  if sc ≤ UBLOCK_COMBINING_DIACRITICAL_MARKS ∨
      sc = UBLOCK_LATIN_EXTENDED_ADDITIONAL then
    UBLOCK_BASIC_LATIN
  else sc

/-- The word-scorer state enumeration from chartable.c. -/
inductive PState where
  | startProcess
  | gotAlpha
  | gotDigit
  | gotUnknown
deriving DecidableEq, Repr

/-- One decoded unit of a word on the Unicode path.  The scorer sees each
code point through the external ICU classification (u_isalpha, u_isdigit,
ublock_getCode, u_isupper), so a unit carries the raw block code, the
uppercase flag and the code point itself (used only for the confusable
lookup); U8_NEXT yielding a negative code point is the invalid unit. -/
inductive UtfChar where
  | alpha (scRaw : Nat) (isUpper : Bool) (cp : Nat)
  | digit
  | other
  | invalid
deriving DecidableEq, Repr, BEq

/-- Transient scanning state of rspamd_chartable_process_word_utf. -/
structure UtfScanState where
  badness : Rat
  lastIsLatin : Int
  sameScriptCount : Nat
  nsym : Nat
  state : PState
  prevState : PState
  ncap : Nat
deriving DecidableEq, Repr

/-- Initial state of the Unicode word scorer: badness 0.0,
last_is_latin = -1, counters zero, both states start_process. -/
def initUtfState : UtfScanState :=
  { badness := 0, lastIsLatin := -1, sameScriptCount := 0, nsym := 0,
    state := PState.startProcess, prevState := PState.startProcess,
    ncap := 0 }

/-- One loop iteration of rspamd_chartable_process_word_utf on a valid
code point (the invalid unit never reaches this function: scanning stops
before it). -/
def stepUtf (is_url : Bool) (s : UtfScanState) (u : UtfChar) : UtfScanState :=
  match u with
  | UtfChar.alpha scRaw up cp =>
    let sc := collapseBlock scRaw
    let ncap' := if sc ≠ UBLOCK_BASIC_LATIN ∧ up then s.ncap + 1 else s.ncap
    let s1 :=
      if s.state = PState.gotDigit then
        { s with badness :=
            if ¬is_url ∧ sc ≠ UBLOCK_BASIC_LATIN ∧
                s.prevState ≠ PState.startProcess then
              s.badness + 1/4
            else s.badness }
      else if s.state = PState.gotAlpha then
        if 0 < s.sameScriptCount then
          if sc ≠ UBLOCK_BASIC_LATIN ∧ s.lastIsLatin ≠ 0 then
            { s with
              badness :=
                if rspamd_can_alias_latin cp then
                  s.badness + 1 / (s.sameScriptCount : Rat)
                else s.badness
              lastIsLatin := 0
              sameScriptCount := 1 }
          else
            { s with sameScriptCount := s.sameScriptCount + 1 }
        else
          { s with
            lastIsLatin := if sc = UBLOCK_BASIC_LATIN then 1 else 0
            sameScriptCount := 1 }
      else s
    { s1 with
      ncap := ncap'
      prevState := s.state
      state := PState.gotAlpha
      nsym := s.nsym + 1 }
  | UtfChar.digit =>
    { s with
      prevState := if s.state ≠ PState.gotDigit then s.state else s.prevState
      state := PState.gotDigit
      sameScriptCount := 0
      nsym := s.nsym + 1 }
  | UtfChar.other =>
    { s with
      prevState := if s.state ≠ PState.gotUnknown then s.state else s.prevState
      state := PState.gotUnknown
      sameScriptCount := 0
      nsym := s.nsym + 1 }
  | UtfChar.invalid => s

/-- The scanning loop of rspamd_chartable_process_word_utf: iterate over
decoded units, breaking at the first invalid code point. -/
def scanUtf (is_url : Bool) : List UtfChar → UtfScanState → UtfScanState
  | [], s => s
  | u :: rest, s =>
    if u = UtfChar.invalid then s
    else scanUtf is_url rest (stepUtf is_url s u)

/-- Post-loop processing of rspamd_chartable_process_word_utf: zero the
badness of words longer than max_word_len, otherwise cap it at 4.0. -/
def finalizeUtf (ctx : ChartableCtx) (s : UtfScanState) : Rat :=
  if ctx.maxWordLen < s.nsym then 0
  else if 4 < s.badness then 4 else s.badness

/-- rspamd_chartable_process_word_utf: returns the word badness together
with the number of uppercase code points seen outside the latin bucket
(the increments applied through the ncap out-parameter). -/
def rspamd_chartable_process_word_utf (ctx : ChartableCtx) (is_url : Bool)
    (w : List UtfChar) : Rat × Nat :=
  let s := scanUtf is_url w initUtfState
  (finalizeUtf ctx s, s.ncap)

/-- The badness component of the Unicode word scorer. -/
def utfBadness (ctx : ChartableCtx) (is_url : Bool) (w : List UtfChar) : Rat :=
  (rspamd_chartable_process_word_utf ctx is_url w).1

/-- g_ascii_isalpha on a byte value. -/
def isAsciiAlpha (b : Nat) : Bool :=
  (65 ≤ b ∧ b ≤ 90) ∨ (97 ≤ b ∧ b ≤ 122)

/-- g_ascii_isdigit on a byte value. -/
def isAsciiDigit (b : Nat) : Bool :=
  48 ≤ b ∧ b ≤ 57

/-- g_ascii_isxdigit on a byte value. -/
def isAsciiXdigit (b : Nat) : Bool :=
  isAsciiDigit b ∨ (65 ≤ b ∧ b ≤ 70) ∨ (97 ≤ b ∧ b ≤ 102)

/-- The two-valued script classification of the byte path,
sc = (*p > 0x7f) ? ascii : non_ascii, with enum values ascii = 1 and
non_ascii = 2 (the names are swapped in the source; only the partition
into the two buckets is observable). -/
def byteSc (b : Nat) : Nat :=
  if 0x7f < b then 1 else 2

/-- Transient scanning state of rspamd_chartable_process_word_ascii. -/
structure AsciiScanState where
  badness : Rat
  lastSc : Nat
  sameScriptCount : Nat
  seenAlpha : Bool
  state : PState
deriving DecidableEq, Repr

/-- Initial state of the byte-path scorer: last_sc = 0, counters zero. -/
def initAsciiState : AsciiScanState :=
  { badness := 0, lastSc := 0, sameScriptCount := 0, seenAlpha := false,
    state := PState.startProcess }

/-- One loop iteration of rspamd_chartable_process_word_ascii. -/
def stepAscii (is_url : Bool) (s : AsciiScanState) (b : Nat) : AsciiScanState :=
  if isAsciiAlpha b ∨ 0x7f < b then
    let s1 :=
      if s.state = PState.gotDigit then
        { s with badness :=
            if s.seenAlpha ∧ ¬is_url ∧ ¬isAsciiXdigit b then s.badness + 1/4
            else s.badness }
      else if s.state = PState.gotAlpha then
        let sc := byteSc b
        if 0 < s.sameScriptCount then
          if sc ≠ s.lastSc then
            { s with
              badness := s.badness + 1 / (s.sameScriptCount : Rat)
              lastSc := sc
              sameScriptCount := 1 }
          else
            { s with sameScriptCount := s.sameScriptCount + 1 }
        else
          { s with
            lastSc := sc
            sameScriptCount := 1 }
      else s
    { s1 with
      seenAlpha := true
      state := PState.gotAlpha }
  else if isAsciiDigit b then
    { s with state := PState.gotDigit, sameScriptCount := 0 }
  else
    { s with state := PState.gotUnknown, sameScriptCount := 0 }

/-- rspamd_chartable_process_word_ascii: returns 0.0 before scanning when
the byte length exceeds max_word_len, otherwise scans the bytes and caps
the badness at 4.0. -/
def rspamd_chartable_process_word_ascii (ctx : ChartableCtx) (is_url : Bool)
    (w : List Nat) : Rat :=
  if ctx.maxWordLen < w.length then 0
  else
    let s := w.foldl (stepAscii is_url) initAsciiState
    if 4 < s.badness then 4 else s.badness

/-- A normalized word of a UTF text part: byte length, the
RSPAMD_STAT_TOKEN_FLAG_TEXT flag, and the decoded unit stream that
U8_NEXT produces from its bytes. -/
structure UtfToken where
  len : Nat
  isText : Bool
  units : List UtfChar
deriving DecidableEq, Repr

/-- A normalized word of a non-UTF text part: its raw bytes and the
RSPAMD_STAT_TOKEN_FLAG_TEXT flag (the byte length is the length of the
byte list). -/
structure ByteToken where
  isText : Bool
  bytes : List Nat
deriving DecidableEq, Repr

/-- The normalized words of one text part, together with the part's
IS_PART_UTF flag which selects the scorer. -/
inductive PartWords where
  | utf (ws : List UtfToken)
  | ascii (ws : List ByteToken)
deriving DecidableEq, Repr

/-- Number of tokenized words of a part (normalized_words length). -/
def partWordCount : PartWords → Nat
  | PartWords.utf ws => ws.length
  | PartWords.ascii ws => ws.length

/-- rspamd_chartable_process_part: fold the scorer over the part's
words (skipping words of zero length or without the text flag), divide
the sum by the total word count, cap at 2.0, and emit a detection under
the body symbol with no context label when the result strictly exceeds
the threshold.  Returns the optional detection and the uppercase count
added to the part's capital_letters counter. -/
def rspamd_chartable_process_part (ctx : ChartableCtx) (p : PartWords) :
    Option Detection × Nat :=
  if partWordCount p = 0 then (none, 0)
  else
    let acc : Rat × Nat :=
      match p with
      | PartWords.utf ws =>
        ws.foldl
          (fun a w =>
            if 0 < w.len ∧ w.isText then
              let r := rspamd_chartable_process_word_utf ctx false w.units
              (a.1 + r.1, a.2 + r.2)
            else a)
          (0, 0)
      | PartWords.ascii ws =>
        ws.foldl
          (fun a w =>
            if 0 < w.bytes.length ∧ w.isText then
              (a.1 + rspamd_chartable_process_word_ascii ctx false w.bytes,
                a.2)
            else a)
          (0, 0)
    let cur := acc.1 / (partWordCount p : Rat)
    let cur2 := if 2 < cur then 2 else cur
    (if ctx.threshold < cur2 then some ⟨ctx.symbol, cur2, none⟩ else none,
      acc.2)

/-- The subject-line block of chartable_symbol_callback: tokenize the
subject (here given as the resulting word list), score every word with
the Unicode path and a null uppercase counter, average, cap at 2.0, and
emit under the body symbol with context label "subject". -/
def subjectCheck (ctx : ChartableCtx) (words : List (List UtfChar)) :
    Option Detection :=
  if words.length = 0 then none
  else
    let cur :=
      (words.foldl (fun a w => a + utfBadness ctx false w) 0) /
        (words.length : Rat)
    let cur2 := if 2 < cur then 2 else cur
    if ctx.threshold < cur2 then some ⟨ctx.symbol, cur2, some "subject"⟩
    else none

/-- The host component of a discovered URL or email address: the host
length and the host text, already split by the g_utf8_validate check of
chartable_url_symbol_callback into the decoded unit stream (valid
UTF-8, scored by the Unicode path) or the raw bytes (invalid, scored by
the byte path). -/
inductive HostContent where
  | utf (units : List UtfChar)
  | bytes (bs : List Nat)
deriving DecidableEq, Repr

/-- One entry of the URL or email set. -/
structure Host where
  len : Nat
  content : HostContent
deriving DecidableEq, Repr

/-- Score of one hostname inside chartable_url_symbol_callback, with
hostname context enabled on either path. -/
def scoreHost (ctx : ChartableCtx) (h : Host) : Rat :=
  match h.content with
  | HostContent.utf us => utfBadness ctx true us
  | HostContent.bytes bs => rspamd_chartable_process_word_ascii ctx true bs

/-- One iteration loop of chartable_url_symbol_callback over a host
set: at the top of each iteration, a running sum already above 2.0 is
clamped to 2.0 and the loop breaks; otherwise hosts with a non-empty
host component add their score to the running sum. -/
def scanHosts (ctx : ChartableCtx) : List Host → Rat → Rat
  | [], cur => cur
  | h :: rest, cur =>
    if 2 < cur then 2
    else scanHosts ctx rest (if 0 < h.len then cur + scoreHost ctx h else cur)

/-- chartable_url_symbol_callback: scan the URL set, then the email set
with the same running sum, and emit a detection when the final sum
strictly exceeds the threshold.  The insertion at the end of the
callback passes chartable_module_ctx->symbol (the body symbol), not
url_symbol, with a null context label. -/
def chartable_url_symbol_callback (ctx : ChartableCtx)
    (urls emails : List Host) : Option Detection :=
  let s := scanHosts ctx emails (scanHosts ctx urls 0)
  if ctx.threshold < s then some ⟨ctx.symbol, s, none⟩ else none

/-- The Latin letter a as a decoded unit (block UBLOCK_BASIC_LATIN). -/
def aChar : UtfChar := UtfChar.alpha 1 false 0x61

/-- The Cyrillic letter o (U+043E, ICU block code 9), a member of the
confusable table. -/
def cyrOChar : UtfChar := UtfChar.alpha 9 false 0x43e

/-- The Greek letter omega (U+03C9, ICU block code 8), not a member of
the confusable table. -/
def omegaChar : UtfChar := UtfChar.alpha 8 false 0x3c9

/-- Decoded unit streams of assorted Latin letters used in tests. -/
def latinChar (c : Char) : UtfChar := UtfChar.alpha 1 false c.toNat

/-- The decoded unit stream of the word ωindow (Greek omega followed by
Latin indow); its UTF-8 byte length is 7. -/
def omegaWindowUnits : List UtfChar :=
  [omegaChar, latinChar 'i', latinChar 'n', latinChar 'd', latinChar 'o',
    latinChar 'w']

/-- The decoded unit stream of the word windоw (Cyrillic о substituted
for the fifth letter); its UTF-8 byte length is 7. -/
def mixedWindowUnits : List UtfChar :=
  [latinChar 'w', latinChar 'i', latinChar 'n', latinChar 'd', cyrOChar,
    latinChar 'w']

/-- The decoded unit stream of the host windоw.com (Cyrillic о); its
UTF-8 byte length is 11. -/
def mixedWindowHostUnits : List UtfChar :=
  mixedWindowUnits ++
    [UtfChar.other, latinChar 'c', latinChar 'o', latinChar 'm']

/-- A unit that U8_NEXT decoded successfully. -/
def validUnit (u : UtfChar) : Bool :=
  u ≠ UtfChar.invalid

/-- The number of code points the Unicode scorer counts for a word: the
units decoded before the first decoding failure. -/
def scoredChars (us : List UtfChar) : Nat :=
  (us.takeWhile validUnit).length

/-- A word alternating the Cyrillic confusable о and the Latin letter a
every character, beginning with the confusable: m pairs, 2*m units. -/
def altCF : Nat → List UtfChar
  | 0 => []
  | n + 1 => cyrOChar :: aChar :: altCF n

/-- A word made of a Latin run of k letters a followed by one Cyrillic
confusable о. -/
def latinRunConf (k : Nat) : List UtfChar :=
  List.replicate k aChar ++ [cyrOChar]

/-- An invalid-UTF-8 host of 10 bytes alternating ASCII letters and the
high byte 0x80 after a two-letter ASCII run. -/
def byteHost : List Nat :=
  [0x61, 0x62, 0x80, 0x62, 0x80, 0x62, 0x80, 0x62, 0x80, 0x62]

/-! Helper lemmas. -/

set_option maxRecDepth 40000 in
theorem can_alias_cyr_o : rspamd_can_alias_latin 0x43e = true := by decide

theorem stepUtf_nsym (is_url : Bool) (s : UtfScanState) (u : UtfChar)
    (h : u ≠ UtfChar.invalid) :
    (stepUtf is_url s u).nsym = s.nsym + 1 := by
  cases u with
  | alpha scRaw up cp => simp [stepUtf]
  | digit => simp [stepUtf]
  | other => simp [stepUtf]
  | invalid => exact absurd rfl h

theorem scanUtf_nsym (is_url : Bool) (us : List UtfChar) (s : UtfScanState) :
    (scanUtf is_url us s).nsym = s.nsym + scoredChars us := by
  induction us generalizing s with
  | nil => simp [scanUtf, scoredChars, List.takeWhile]
  | cons u rest ih =>
    by_cases h : u = UtfChar.invalid
    · subst h
      simp [scanUtf, scoredChars, List.takeWhile, validUnit]
    · rw [scanUtf, if_neg h, ih]
      rw [stepUtf_nsym is_url s u h]
      have hv : validUnit u = true := by
        simp [validUnit, h]
      simp [scoredChars, List.takeWhile, hv]
      omega

theorem scanUtf_stops_at_invalid (is_url : Bool) (us : List UtfChar)
    (s : UtfScanState) :
    scanUtf is_url us s = scanUtf is_url (us.takeWhile validUnit) s := by
  induction us generalizing s with
  | nil => simp [List.takeWhile]
  | cons u rest ih =>
    by_cases h : u = UtfChar.invalid
    · subst h
      simp [scanUtf, List.takeWhile, validUnit]
    · have hv : validUnit u = true := by simp [validUnit, h]
      rw [scanUtf, if_neg h, List.takeWhile, hv]
      simp only []
      rw [scanUtf, if_neg h, ih]

theorem utfBadness_le_four (ctx : ChartableCtx) (is_url : Bool)
    (us : List UtfChar) : utfBadness ctx is_url us ≤ 4 := by
  unfold utfBadness rspamd_chartable_process_word_utf finalizeUtf
  dsimp only
  split
  · norm_num
  · split
    · norm_num
    · linarith [not_lt.1 (by assumption : ¬4 < (scanUtf is_url us initUtfState).badness)]

theorem asciiBadness_le_four (ctx : ChartableCtx) (is_url : Bool)
    (bs : List Nat) : rspamd_chartable_process_word_ascii ctx is_url bs ≤ 4 := by
  unfold rspamd_chartable_process_word_ascii
  dsimp only
  split
  · norm_num
  · split
    · norm_num
    · linarith [not_lt.1 (by assumption :
        ¬4 < (bs.foldl (stepAscii is_url) initAsciiState).badness)]

theorem scanUtf_nsym_init (is_url : Bool) (us : List UtfChar) :
    (scanUtf is_url us initUtfState).nsym = scoredChars us := by
  rw [scanUtf_nsym]
  simp [initUtfState]

/-- Claim C5: a word whose scored-character count exceeds max_word_len
scores exactly 0.0 on both paths: the Unicode path zeroes the
accumulated penalty after scanning (counting decoded code points), the
byte path returns 0.0 before scanning (byte length). -/
theorem c5_long_word_scores_zero :
    (∀ (ctx : ChartableCtx) (is_url : Bool) (us : List UtfChar),
      ctx.maxWordLen < scoredChars us → utfBadness ctx is_url us = 0) ∧
    (∀ (ctx : ChartableCtx) (is_url : Bool) (bs : List Nat),
      ctx.maxWordLen < bs.length →
      rspamd_chartable_process_word_ascii ctx is_url bs = 0) := by
  constructor
  · intro ctx is_url us h
    unfold utfBadness rspamd_chartable_process_word_utf finalizeUtf
    dsimp only
    rw [if_pos (by rw [scanUtf_nsym_init]; exact h)]
  · intro ctx is_url bs h
    unfold rspamd_chartable_process_word_ascii
    rw [if_pos h]

/-- Witness for C5: an 11-character word scores 0.0 on both paths when
max_word_len = 10. -/
theorem c5_long_word_scores_zero_witness :
    utfBadness defaultCtx false (List.replicate 11 aChar) = 0 ∧
    rspamd_chartable_process_word_ascii defaultCtx false
      (List.replicate 11 97) = 0 :=
  ⟨c5_long_word_scores_zero.1 defaultCtx false _ (by decide),
    c5_long_word_scores_zero.2 defaultCtx false _ (by decide)⟩

/-- Claim C8: a word containing an invalid code point is scored exactly
like its longest decodable initial segment: scanning stops at the
failure point and the badness accumulated up to there is returned,
subject to the normal post-loop length-zeroing and capping; no error is
signalled (the scorer stays a total function into badness values). -/
theorem c8_invalid_stops_scan :
    ∀ (ctx : ChartableCtx) (is_url : Bool) (us : List UtfChar),
      UtfChar.invalid ∈ us →
      rspamd_chartable_process_word_utf ctx is_url us =
        rspamd_chartable_process_word_utf ctx is_url
          (us.takeWhile validUnit) := by
  intro ctx is_url us _
  unfold rspamd_chartable_process_word_utf
  rw [scanUtf_stops_at_invalid]

/-- Witness for C8 at a concrete word with a decoding failure in the
middle. -/
theorem c8_invalid_stops_scan_witness :
    rspamd_chartable_process_word_utf defaultCtx false
        [aChar, UtfChar.invalid, cyrOChar] =
      rspamd_chartable_process_word_utf defaultCtx false [aChar] := by
  have h := c8_invalid_stops_scan defaultCtx false
    [aChar, UtfChar.invalid, cyrOChar] (by simp)
  rw [show ([aChar, UtfChar.invalid, cyrOChar].takeWhile validUnit) =
      [aChar] by decide] at h
  exact h

/-- Claim C9: the same-script run counter is still 0 after the first
alphabetic character of a word; the Latin/non-Latin bucket is recorded
only at the second consecutive alphabetic character; consequently every
two-character alphabetic word (in particular a single Latin letter
followed by a Confusable-Set member) accrues no confusable penalty. -/
theorem c9_first_alpha_untracked :
    (∀ (is_url : Bool) (scRaw : Nat) (up : Bool) (cp : Nat),
      (stepUtf is_url initUtfState
        (UtfChar.alpha scRaw up cp)).sameScriptCount = 0) ∧
    (∀ (is_url : Bool) (sc1 : Nat) (up1 : Bool) (cp1 : Nat) (sc2 : Nat)
        (up2 : Bool) (cp2 : Nat),
      (scanUtf is_url [UtfChar.alpha sc1 up1 cp1, UtfChar.alpha sc2 up2 cp2]
          initUtfState).lastIsLatin =
        (if collapseBlock sc2 = UBLOCK_BASIC_LATIN then 1 else 0) ∧
      (scanUtf is_url [UtfChar.alpha sc1 up1 cp1, UtfChar.alpha sc2 up2 cp2]
          initUtfState).sameScriptCount = 1) ∧
    (∀ (ctx : ChartableCtx) (is_url : Bool) (sc1 : Nat) (up1 : Bool)
        (cp1 : Nat) (sc2 : Nat) (up2 : Bool) (cp2 : Nat),
      utfBadness ctx is_url
        [UtfChar.alpha sc1 up1 cp1, UtfChar.alpha sc2 up2 cp2] = 0) := by
  refine ⟨?_, ?_, ?_⟩
  · intro is_url scRaw up cp
    simp [stepUtf, initUtfState]
  · intro is_url sc1 up1 cp1 sc2 up2 cp2
    constructor <;> simp [scanUtf, stepUtf, initUtfState]
  · intro ctx i sc1 up1 cp1 sc2 up2 cp2
    unfold utfBadness rspamd_chartable_process_word_utf finalizeUtf
    dsimp only
    have hb : (scanUtf i [UtfChar.alpha sc1 up1 cp1, UtfChar.alpha sc2 up2 cp2]
        initUtfState).badness = 0 := by
      simp [scanUtf, stepUtf, initUtfState]
    rw [hb]
    split
    · rfl
    · norm_num

/-- Claim C6: a digit run followed by a non-Latin alphabetic character
adds exactly 0.25 on the Unicode path when not in hostname context and
the digit run was not at the very start of the word (prev_state is not
start_process); on the byte path the transition from a digit run into a
non-ASCII-hex-digit alphabetic-or-high byte adds exactly 0.25 when an
alphabetic byte was already seen and not in hostname context. -/
theorem c6_digit_alpha_penalty :
    (∀ (s : UtfScanState) (scRaw : Nat) (up : Bool) (cp : Nat),
      s.state = PState.gotDigit →
      s.prevState ≠ PState.startProcess →
      collapseBlock scRaw ≠ UBLOCK_BASIC_LATIN →
      (stepUtf false s (UtfChar.alpha scRaw up cp)).badness =
        s.badness + 1/4) ∧
    (∀ (s : AsciiScanState) (b : Nat),
      s.state = PState.gotDigit →
      s.seenAlpha = true →
      (isAsciiAlpha b ∨ 0x7f < b) →
      isAsciiXdigit b = false →
      (stepAscii false s b).badness = s.badness + 1/4) ∧
    (∀ (is_url : Bool) (s : AsciiScanState) (b : Nat),
      s.state = PState.gotDigit →
      (isAsciiAlpha b ∨ 0x7f < b) →
      (s.seenAlpha = false ∨ isAsciiXdigit b = true ∨ is_url = true) →
      (stepAscii is_url s b).badness = s.badness) := by
  refine ⟨?_, ?_, ?_⟩
  · intro s scRaw up cp hst hprev hsc
    simp [stepUtf, hst, hprev, hsc]
  · intro s b hst hseen halpha hx
    simp [stepAscii, halpha, hst, hseen, hx]
  · intro is_url s b hst halpha hneg
    rcases hneg with hn | hn | hn <;> simp [stepAscii, halpha, hst, hn]

/-- Witness for C6: the digit-to-Cyrillic transition in a concrete
mid-word state, and the digit-to-letter-g transition on the byte path. -/
theorem c6_digit_alpha_penalty_witness :
    (stepUtf false
        ⟨0, -1, 0, 2, PState.gotDigit, PState.gotAlpha, 0⟩
        (UtfChar.alpha 9 false 0x43e)).badness = 0 + 1/4 ∧
    (stepAscii false ⟨0, 0, 0, true, PState.gotDigit⟩ 0x67).badness =
      0 + 1/4 ∧
    (stepAscii false ⟨0, 0, 0, true, PState.gotDigit⟩ 0x62).badness = 0 :=
  ⟨c6_digit_alpha_penalty.1 _ 9 false 0x43e rfl (by decide) (by decide),
    c6_digit_alpha_penalty.2.1 _ 0x67 rfl rfl (by decide) (by decide),
    c6_digit_alpha_penalty.2.2 false _ 0x62 rfl (by decide)
      (Or.inr (Or.inl (by decide)))⟩

/-- Claim C10: the byte-path scorer adds 1.0 / run_length on every
switch of consecutive alphabetic bytes between the two byte buckets, in
either direction and with no Confusable-Set membership test, resetting
the run to length 1 with the new bucket; by contrast the Unicode path
adds nothing on any alphabetic character extending a non-Latin run. -/
theorem c10_ascii_switch_penalty :
    (∀ (is_url : Bool) (s : AsciiScanState) (b : Nat),
      s.state = PState.gotAlpha →
      0 < s.sameScriptCount →
      (isAsciiAlpha b ∨ 0x7f < b) →
      byteSc b ≠ s.lastSc →
      (stepAscii is_url s b).badness =
          s.badness + 1 / (s.sameScriptCount : Rat) ∧
        (stepAscii is_url s b).lastSc = byteSc b ∧
        (stepAscii is_url s b).sameScriptCount = 1) ∧
    (∀ (is_url : Bool) (s : UtfScanState) (scRaw : Nat) (up : Bool)
        (cp : Nat),
      s.state = PState.gotAlpha →
      0 < s.sameScriptCount →
      s.lastIsLatin = 0 →
      (stepUtf is_url s (UtfChar.alpha scRaw up cp)).badness = s.badness) := by
  constructor
  · intro is_url s b hst hssc halpha hsc
    refine ⟨?_, ?_, ?_⟩ <;> simp [stepAscii, halpha, hst, hssc, hsc]
  · intro is_url s scRaw up cp hst hssc hlat
    simp [stepUtf, hst, hssc, hlat]

/-- Witness for C10: a high byte after an ASCII run of length 2 is
penalized by 0.5 (no confusable test), and on the Unicode path a Latin
letter after a non-Latin run adds nothing. -/
theorem c10_ascii_switch_penalty_witness :
    (stepAscii false ⟨0, 2, 2, true, PState.gotAlpha⟩ 0x80).badness =
        0 + 1 / ((2 : Nat) : Rat) ∧
    (stepUtf false ⟨1, 0, 3, 4, PState.gotAlpha, PState.gotAlpha, 0⟩
        (UtfChar.alpha 1 false 0x61)).badness = 1 :=
  ⟨(c10_ascii_switch_penalty.1 false _ 0x80 rfl (by decide) (by decide)
      (by decide)).1,
    c10_ascii_switch_penalty.2 false _ 1 false 0x61 rfl (by decide) rfl⟩

theorem stepUtf_confusable (is_url : Bool) (s : UtfScanState) (scRaw : Nat)
    (up : Bool) (cp : Nat) (hst : s.state = PState.gotAlpha)
    (hssc : 0 < s.sameScriptCount)
    (hsc : collapseBlock scRaw ≠ UBLOCK_BASIC_LATIN)
    (hlat : s.lastIsLatin ≠ 0) (hcp : rspamd_can_alias_latin cp = true) :
    (stepUtf is_url s (UtfChar.alpha scRaw up cp)).badness =
        s.badness + 1 / (s.sameScriptCount : Rat) ∧
      (stepUtf is_url s (UtfChar.alpha scRaw up cp)).lastIsLatin = 0 ∧
      (stepUtf is_url s (UtfChar.alpha scRaw up cp)).sameScriptCount = 1 ∧
      (stepUtf is_url s (UtfChar.alpha scRaw up cp)).state =
        PState.gotAlpha ∧
      (stepUtf is_url s (UtfChar.alpha scRaw up cp)).nsym = s.nsym + 1 := by
  refine ⟨?_, ?_, ?_, ?_, ?_⟩ <;>
    simp [stepUtf, hst, hssc, hsc, hlat, hcp]

theorem scanUtf_nonlatin_alpha (is_url : Bool) (us : List UtfChar) :
    ∀ s : UtfScanState, s.state = PState.gotAlpha → s.lastIsLatin = 0 →
    0 < s.sameScriptCount →
    (∀ u ∈ us, ∃ scRaw up cp, u = UtfChar.alpha scRaw up cp) →
    (scanUtf is_url us s).badness = s.badness := by
  induction us with
  | nil => intro s _ _ _ _; rfl
  | cons u rest ih =>
    intro s hst hlat hssc hall
    obtain ⟨scRaw, up, cp, rfl⟩ := hall u (List.mem_cons_self u rest)
    rw [scanUtf, if_neg (by simp)]
    have hb : (stepUtf is_url s (UtfChar.alpha scRaw up cp)).badness =
        s.badness := by
      simp [stepUtf, hst, hssc, hlat]
    have h2 : (stepUtf is_url s (UtfChar.alpha scRaw up cp)).state =
        PState.gotAlpha := by
      simp [stepUtf]
    have h3 : (stepUtf is_url s (UtfChar.alpha scRaw up cp)).lastIsLatin =
        0 := by
      simp [stepUtf, hst, hssc, hlat]
    have h4 : 0 < (stepUtf is_url s
        (UtfChar.alpha scRaw up cp)).sameScriptCount := by
      simp [stepUtf, hst, hssc, hlat]
    rw [ih _ h2 h3 h4 (fun v hv => hall v (List.mem_cons_of_mem _ hv)), hb]

theorem scanUtf_latin_run (is_url : Bool) (j : Nat) :
    ∀ s : UtfScanState, s.state = PState.gotAlpha → s.lastIsLatin = 1 →
    0 < s.sameScriptCount →
    (scanUtf is_url (List.replicate j aChar) s).badness = s.badness ∧
      (scanUtf is_url (List.replicate j aChar) s).sameScriptCount =
        s.sameScriptCount + j ∧
      (scanUtf is_url (List.replicate j aChar) s).lastIsLatin = 1 ∧
      (scanUtf is_url (List.replicate j aChar) s).state =
        PState.gotAlpha := by
  induction j with
  | zero =>
    intro s hst hlat hssc
    exact ⟨rfl, rfl, hlat, hst⟩
  | succ n ih =>
    intro s hst hlat hssc
    rw [List.replicate_succ]
    rw [scanUtf, if_neg (by simp [aChar])]
    have hsc1 : collapseBlock 1 = UBLOCK_BASIC_LATIN := by decide
    have hb : (stepUtf is_url s aChar).badness = s.badness := by
      simp [stepUtf, aChar, hst, hssc, hsc1]
    have h2 : (stepUtf is_url s aChar).state = PState.gotAlpha := by
      simp [stepUtf, aChar]
    have h3 : (stepUtf is_url s aChar).lastIsLatin = 1 := by
      simp [stepUtf, aChar, hst, hssc, hsc1, hlat]
    have h4 : (stepUtf is_url s aChar).sameScriptCount =
        s.sameScriptCount + 1 := by
      simp [stepUtf, aChar, hst, hssc, hsc1]
    obtain ⟨b1, b2, b3, b4⟩ := ih _ h2 h3 (by omega)
    refine ⟨by rw [b1, hb], by rw [b2, h4]; omega, b3, b4⟩

theorem scanUtf_append (is_url : Bool) (xs ys : List UtfChar) :
    ∀ s : UtfScanState, (∀ u ∈ xs, u ≠ UtfChar.invalid) →
    scanUtf is_url (xs ++ ys) s = scanUtf is_url ys (scanUtf is_url xs s) := by
  induction xs with
  | nil => intro s _; rfl
  | cons u rest ih =>
    intro s h
    have hu : u ≠ UtfChar.invalid := h u (List.mem_cons_self u rest)
    rw [List.cons_append, scanUtf, if_neg hu, scanUtf, if_neg hu]
    exact ih _ (fun v hv => h v (List.mem_cons_of_mem _ hv))

theorem scoredChars_of_valid (us : List UtfChar)
    (h : ∀ u ∈ us, u ≠ UtfChar.invalid) : scoredChars us = us.length := by
  induction us with
  | nil => rfl
  | cons u rest ih =>
    have hu : validUnit u = true := by
      simp [validUnit, h u (List.mem_cons_self u rest)]
    unfold scoredChars at *
    simp [List.takeWhile, hu]
    exact ih (fun v hv => h v (List.mem_cons_of_mem _ hv))

theorem utfBadness_eval (ctx : ChartableCtx) (is_url : Bool)
    (us : List UtfChar) (h1 : scoredChars us ≤ ctx.maxWordLen)
    (h2 : (scanUtf is_url us initUtfState).badness ≤ 4) :
    utfBadness ctx is_url us = (scanUtf is_url us initUtfState).badness := by
  unfold utfBadness rspamd_chartable_process_word_utf finalizeUtf
  dsimp only
  rw [scanUtf_nsym_init, if_neg (not_lt.2 h1), if_neg (not_lt.2 h2)]

theorem altCF_allAlpha (m : Nat) :
    ∀ u ∈ altCF m, ∃ scRaw up cp, u = UtfChar.alpha scRaw up cp := by
  induction m with
  | zero => intro u hu; simp [altCF] at hu
  | succ n ih =>
    intro u hu
    rw [altCF] at hu
    rcases List.mem_cons.mp hu with h | hu2
    · exact ⟨9, false, 0x43e, by rw [h]; rfl⟩
    rcases List.mem_cons.mp hu2 with h | hu3
    · exact ⟨1, false, 0x61, by rw [h]; rfl⟩
    · exact ih u hu3

theorem altCF_length (m : Nat) : (altCF m).length = 2 * m := by
  induction m with
  | zero => rfl
  | succ n ih => rw [altCF]; simp [ih]; omega

theorem altCF_valid (m : Nat) : ∀ u ∈ altCF m, u ≠ UtfChar.invalid := by
  intro u hu
  obtain ⟨scRaw, up, cp, rfl⟩ := altCF_allAlpha m u hu
  simp

theorem altCF_badness (is_url : Bool) (m : Nat) (hm : 2 ≤ m) :
    (scanUtf is_url (altCF m) initUtfState).badness = 1 := by
  obtain ⟨k, rfl⟩ : ∃ k, m = k + 2 := ⟨m - 2, by omega⟩
  rw [show altCF (k + 2) =
      cyrOChar :: aChar :: cyrOChar :: aChar :: altCF k by
    rw [altCF, altCF]]
  rw [scanUtf, if_neg (by simp [cyrOChar]), scanUtf, if_neg (by simp [aChar]),
    scanUtf, if_neg (by simp [cyrOChar])]
  have h3 : stepUtf is_url (stepUtf is_url (stepUtf is_url initUtfState
      cyrOChar) aChar) cyrOChar =
      ⟨1, 0, 1, 3, PState.gotAlpha, PState.gotAlpha, 0⟩ := by
    simp [stepUtf, initUtfState, cyrOChar, aChar, collapseBlock,
      UBLOCK_BASIC_LATIN, UBLOCK_COMBINING_DIACRITICAL_MARKS,
      UBLOCK_LATIN_EXTENDED_ADDITIONAL, can_alias_cyr_o]
  rw [h3]
  rw [scanUtf_nonlatin_alpha is_url (aChar :: altCF k)
    ⟨1, 0, 1, 3, PState.gotAlpha, PState.gotAlpha, 0⟩ rfl rfl (by norm_num)
    ?_]
  intro u hu
  rcases List.mem_cons.mp hu with h | h
  · exact ⟨1, false, 0x61, by rw [h]; rfl⟩
  · exact altCF_allAlpha k u h

theorem latinRunConf_badness (is_url : Bool) (k : Nat) (hk : 2 ≤ k) :
    (scanUtf is_url (latinRunConf k) initUtfState).badness =
      1 / ((k : Rat) - 1) := by
  obtain ⟨j, rfl⟩ : ∃ j, k = j + 2 := ⟨k - 2, by omega⟩
  rw [show latinRunConf (j + 2) =
      aChar :: aChar :: (List.replicate j aChar ++ [cyrOChar]) by
    rw [latinRunConf, List.replicate_succ, List.replicate_succ,
      List.cons_append, List.cons_append]]
  rw [scanUtf, if_neg (by simp [aChar]), scanUtf, if_neg (by simp [aChar])]
  have h2 : stepUtf is_url (stepUtf is_url initUtfState aChar) aChar =
      ⟨0, 1, 1, 2, PState.gotAlpha, PState.gotAlpha, 0⟩ := by
    simp [stepUtf, initUtfState, aChar, collapseBlock, UBLOCK_BASIC_LATIN,
      UBLOCK_COMBINING_DIACRITICAL_MARKS, UBLOCK_LATIN_EXTENDED_ADDITIONAL]
  rw [h2]
  rw [scanUtf_append is_url (List.replicate j aChar) [cyrOChar] _
    (by intro u hu; rw [List.eq_of_mem_replicate hu]; simp [aChar])]
  obtain ⟨b1, b2, b3, b4⟩ := scanUtf_latin_run is_url j
    ⟨0, 1, 1, 2, PState.gotAlpha, PState.gotAlpha, 0⟩ rfl rfl (by norm_num)
  rw [scanUtf, if_neg (by simp [cyrOChar]), scanUtf]
  obtain ⟨p1, _⟩ := stepUtf_confusable is_url _ 9 false 0x43e b4
    (by rw [b2]; dsimp only; omega) (by decide) (by rw [b3]; norm_num)
    can_alias_cyr_o
  rw [show (UtfChar.alpha 9 false 1086) = cyrOChar by rfl] at p1
  rw [p1, b1, b2]
  push_cast
  rw [show ((1 : Rat) + j) = (j + 2 : Rat) - 1 by ring]
  norm_num

theorem latinRunConf_valid (k : Nat) :
    ∀ u ∈ latinRunConf k, u ≠ UtfChar.invalid := by
  intro u hu
  rw [latinRunConf] at hu
  rcases List.mem_append.mp hu with h | h
  · rw [List.eq_of_mem_replicate h]; simp [aChar]
  · rw [List.mem_singleton.mp h]; simp [cyrOChar]

theorem latinRunConf_length (k : Nat) : (latinRunConf k).length = k + 1 := by
  simp [latinRunConf]

/-- Counterexample to claim C4: the word aоaо alternates a Latin letter
and a Confusable-Set member (Cyrillic о, U+043E) every character, has 4
characters (at most the default max_word_len of 10), yet its badness is
exactly 0, not strictly greater than 0: the leading Latin letter is not
tracked, so the run bucket is recorded as non-Latin at the second
character and no Latin-run-to-confusable transition ever happens. -/
theorem c4_alternating_latin_first_zero :
    rspamd_can_alias_latin 0x43e = true ∧
    utfBadness defaultCtx false [aChar, cyrOChar, aChar, cyrOChar] = 0 := by
  refine ⟨can_alias_cyr_o, ?_⟩
  have hb : (scanUtf false [aChar, cyrOChar, aChar, cyrOChar]
      initUtfState).badness = 0 := by
    simp [scanUtf, stepUtf, initUtfState, aChar, cyrOChar, collapseBlock,
      UBLOCK_BASIC_LATIN, UBLOCK_COMBINING_DIACRITICAL_MARKS,
      UBLOCK_LATIN_EXTENDED_ADDITIONAL]
  rw [utfBadness_eval defaultCtx false _ (by decide) (by rw [hb]; norm_num),
    hb]

/-- Claim C4 as amended: a transition from a tracked Latin run to a
non-Latin Confusable-Set character adds exactly 1.0 / run_length and
resets the run to length 1 with the non-Latin bucket.  An alternating
word accrues a penalty only when its first Confusable-Set member is
preceded by a tracked Latin run, that is, when the word begins with the
confusable character: such a word of length at most max_word_len scores
exactly 1.0 (greater than 0 and at most 4.0), while the alternation
beginning with the Latin letter scores 0.  For a Latin run of k letters
followed by a confusable character the badness is 1 / (k - 1), which
strictly decreases as the pre-switch run length increases. -/
theorem c4_confusable_run_penalty :
    (∀ (is_url : Bool) (s : UtfScanState) (scRaw : Nat) (up : Bool)
        (cp : Nat),
      s.state = PState.gotAlpha → 0 < s.sameScriptCount →
      collapseBlock scRaw ≠ UBLOCK_BASIC_LATIN → s.lastIsLatin ≠ 0 →
      rspamd_can_alias_latin cp = true →
      (stepUtf is_url s (UtfChar.alpha scRaw up cp)).badness =
          s.badness + 1 / (s.sameScriptCount : Rat) ∧
        (stepUtf is_url s (UtfChar.alpha scRaw up cp)).lastIsLatin = 0 ∧
        (stepUtf is_url s (UtfChar.alpha scRaw up cp)).sameScriptCount =
          1) ∧
    (∀ (ctx : ChartableCtx) (is_url : Bool) (m : Nat), 2 ≤ m →
      2 * m ≤ ctx.maxWordLen → utfBadness ctx is_url (altCF m) = 1) ∧
    (∀ (ctx : ChartableCtx) (is_url : Bool) (k : Nat), 2 ≤ k →
      k + 1 ≤ ctx.maxWordLen →
      utfBadness ctx is_url (latinRunConf k) = 1 / ((k : Rat) - 1)) ∧
    (∀ (ctx : ChartableCtx) (is_url : Bool) (k k2 : Nat), 2 ≤ k → k < k2 →
      k2 + 1 ≤ ctx.maxWordLen → k + 1 ≤ ctx.maxWordLen →
      utfBadness ctx is_url (latinRunConf k2) <
        utfBadness ctx is_url (latinRunConf k)) := by
  have hrun : ∀ (ctx : ChartableCtx) (is_url : Bool) (k : Nat), 2 ≤ k →
      k + 1 ≤ ctx.maxWordLen →
      utfBadness ctx is_url (latinRunConf k) = 1 / ((k : Rat) - 1) := by
    intro ctx is_url k hk hlen
    have hone : (1 : Rat) ≤ (k : Rat) - 1 := by
      have : (2 : Rat) ≤ (k : Rat) := by exact_mod_cast hk
      linarith
    have hle : 1 / ((k : Rat) - 1) ≤ 4 := by
      rw [div_le_iff₀ (by linarith)]
      linarith
    have hsc2 : scoredChars (latinRunConf k) ≤ ctx.maxWordLen := by
      rw [scoredChars_of_valid _ (latinRunConf_valid k), latinRunConf_length]
      exact hlen
    have hb4 : (scanUtf is_url (latinRunConf k) initUtfState).badness ≤ 4 := by
      rw [latinRunConf_badness is_url k hk]
      exact hle
    rw [utfBadness_eval ctx is_url _ hsc2 hb4,
      latinRunConf_badness is_url k hk]
  refine ⟨?_, ?_, hrun, ?_⟩
  · intro is_url s scRaw up cp hst hssc hsc hlat hcp
    obtain ⟨p1, p2, p3, _⟩ :=
      stepUtf_confusable is_url s scRaw up cp hst hssc hsc hlat hcp
    exact ⟨p1, p2, p3⟩
  · intro ctx is_url m hm hlen
    have hsc2 : scoredChars (altCF m) ≤ ctx.maxWordLen := by
      rw [scoredChars_of_valid _ (altCF_valid m), altCF_length]
      exact hlen
    have hb4 : (scanUtf is_url (altCF m) initUtfState).badness ≤ 4 := by
      rw [altCF_badness is_url m hm]
      norm_num
    rw [utfBadness_eval ctx is_url _ hsc2 hb4, altCF_badness is_url m hm]
  · intro ctx is_url k k2 hk hkk hlen2 hlen
    rw [hrun ctx is_url k hk hlen, hrun ctx is_url k2 (by omega) hlen2]
    have h0 : (0 : Rat) < (k : Rat) - 1 := by
      have : (2 : Rat) ≤ (k : Rat) := by exact_mod_cast hk
      linarith
    have hlt : (k : Rat) - 1 < (k2 : Rat) - 1 := by
      have : (k : Rat) < (k2 : Rat) := by exact_mod_cast hkk
      linarith
    exact one_div_lt_one_div_of_lt h0 hlt

/-- Witness for the amended C4 at concrete inputs: the alternation оaоa
scores 1, aaaaо scores 1/3, and aaaaaо scores less than aaaaо. -/
theorem c4_confusable_run_penalty_witness :
    utfBadness defaultCtx false (altCF 2) = 1 ∧
    utfBadness defaultCtx false (latinRunConf 4) = 1 / ((4 : Rat) - 1) ∧
    utfBadness defaultCtx false (latinRunConf 5) <
      utfBadness defaultCtx false (latinRunConf 4) :=
  ⟨c4_confusable_run_penalty.2.1 defaultCtx false 2 (by norm_num) (by decide),
    c4_confusable_run_penalty.2.2.1 defaultCtx false 4 (by norm_num)
      (by decide),
    c4_confusable_run_penalty.2.2.2 defaultCtx false 4 5 (by norm_num)
      (by norm_num) (by decide) (by decide)⟩

theorem defaultCtx_symbol : defaultCtx.symbol = "R_MIXED_CHARSET" := rfl

theorem defaultCtx_threshold : defaultCtx.threshold = 1/10 := rfl

theorem omega_window_word :
    rspamd_chartable_process_word_utf defaultCtx false omegaWindowUnits =
      (0, 0) := by
  have hs : scanUtf false omegaWindowUnits initUtfState =
      ⟨0, 1, 5, 6, PState.gotAlpha, PState.gotAlpha, 0⟩ := by
    simp [omegaWindowUnits, omegaChar, latinChar, scanUtf, stepUtf,
      initUtfState, collapseBlock, UBLOCK_BASIC_LATIN,
      UBLOCK_COMBINING_DIACRITICAL_MARKS, UBLOCK_LATIN_EXTENDED_ADDITIONAL]
  unfold rspamd_chartable_process_word_utf finalizeUtf
  rw [hs]
  norm_num [defaultCtx]

theorem mixed_window_word :
    rspamd_chartable_process_word_utf defaultCtx false mixedWindowUnits =
      (1/3, 0) := by
  have hs : scanUtf false mixedWindowUnits initUtfState =
      ⟨1/3, 0, 2, 6, PState.gotAlpha, PState.gotAlpha, 0⟩ := by
    simp [mixedWindowUnits, cyrOChar, latinChar, scanUtf, stepUtf,
      initUtfState, collapseBlock, UBLOCK_BASIC_LATIN,
      UBLOCK_COMBINING_DIACRITICAL_MARKS, UBLOCK_LATIN_EXTENDED_ADDITIONAL,
      can_alias_cyr_o]
  unfold rspamd_chartable_process_word_utf finalizeUtf
  rw [hs]
  norm_num [defaultCtx]

set_option maxHeartbeats 1000000 in
theorem mixed_window_host_word :
    utfBadness defaultCtx true mixedWindowHostUnits = 1/3 := by
  have hs : scanUtf true mixedWindowHostUnits initUtfState =
      ⟨1/3, 1, 2, 10, PState.gotAlpha, PState.gotAlpha, 0⟩ := by
    simp [mixedWindowHostUnits, mixedWindowUnits, cyrOChar, latinChar,
      scanUtf, stepUtf, initUtfState, collapseBlock, UBLOCK_BASIC_LATIN,
      UBLOCK_COMBINING_DIACRITICAL_MARKS, UBLOCK_LATIN_EXTENDED_ADDITIONAL,
      can_alias_cyr_o]
  unfold utfBadness rspamd_chartable_process_word_utf finalizeUtf
  rw [hs]
  norm_num [defaultCtx]

theorem byteHost_word :
    rspamd_chartable_process_word_ascii defaultCtx true byteHost = 4 := by
  have e1 : stepAscii true initAsciiState 0x61 =
      ⟨0, 0, 0, true, PState.gotAlpha⟩ := by
    simp [stepAscii, initAsciiState, isAsciiAlpha, isAsciiDigit,
      isAsciiXdigit, byteSc]
  have e2 : stepAscii true (⟨0, 0, 0, true, PState.gotAlpha⟩ :
      AsciiScanState) 0x62 = ⟨0, 2, 1, true, PState.gotAlpha⟩ := by
    simp [stepAscii, isAsciiAlpha, isAsciiDigit, isAsciiXdigit, byteSc]
  have e3 : stepAscii true (⟨0, 2, 1, true, PState.gotAlpha⟩ :
      AsciiScanState) 0x80 = ⟨1, 1, 1, true, PState.gotAlpha⟩ := by
    simp [stepAscii, isAsciiAlpha, isAsciiDigit, isAsciiXdigit, byteSc] <;>
      norm_num
  have e4 : stepAscii true (⟨1, 1, 1, true, PState.gotAlpha⟩ :
      AsciiScanState) 0x62 = ⟨2, 2, 1, true, PState.gotAlpha⟩ := by
    simp [stepAscii, isAsciiAlpha, isAsciiDigit, isAsciiXdigit, byteSc] <;>
      norm_num
  have e5 : stepAscii true (⟨2, 2, 1, true, PState.gotAlpha⟩ :
      AsciiScanState) 0x80 = ⟨3, 1, 1, true, PState.gotAlpha⟩ := by
    simp [stepAscii, isAsciiAlpha, isAsciiDigit, isAsciiXdigit, byteSc] <;>
      norm_num
  have e6 : stepAscii true (⟨3, 1, 1, true, PState.gotAlpha⟩ :
      AsciiScanState) 0x62 = ⟨4, 2, 1, true, PState.gotAlpha⟩ := by
    simp [stepAscii, isAsciiAlpha, isAsciiDigit, isAsciiXdigit, byteSc] <;>
      norm_num
  have e7 : stepAscii true (⟨4, 2, 1, true, PState.gotAlpha⟩ :
      AsciiScanState) 0x80 = ⟨5, 1, 1, true, PState.gotAlpha⟩ := by
    simp [stepAscii, isAsciiAlpha, isAsciiDigit, isAsciiXdigit, byteSc] <;>
      norm_num
  have e8 : stepAscii true (⟨5, 1, 1, true, PState.gotAlpha⟩ :
      AsciiScanState) 0x62 = ⟨6, 2, 1, true, PState.gotAlpha⟩ := by
    simp [stepAscii, isAsciiAlpha, isAsciiDigit, isAsciiXdigit, byteSc] <;>
      norm_num
  have e9 : stepAscii true (⟨6, 2, 1, true, PState.gotAlpha⟩ :
      AsciiScanState) 0x80 = ⟨7, 1, 1, true, PState.gotAlpha⟩ := by
    simp [stepAscii, isAsciiAlpha, isAsciiDigit, isAsciiXdigit, byteSc] <;>
      norm_num
  have e10 : stepAscii true (⟨7, 1, 1, true, PState.gotAlpha⟩ :
      AsciiScanState) 0x62 = ⟨8, 2, 1, true, PState.gotAlpha⟩ := by
    simp [stepAscii, isAsciiAlpha, isAsciiDigit, isAsciiXdigit, byteSc] <;>
      norm_num
  have hs : byteHost.foldl (stepAscii true) initAsciiState =
      ⟨8, 2, 1, true, PState.gotAlpha⟩ := by
    simp only [byteHost, List.foldl_cons, List.foldl_nil, e1, e2, e3, e4,
      e5, e6, e7, e8, e9, e10]
  unfold rspamd_chartable_process_word_ascii
  rw [if_neg (by decide)]
  rw [hs]
  norm_num

theorem omega_window_part :
    rspamd_chartable_process_part defaultCtx
      (PartWords.utf [⟨7, true, omegaWindowUnits⟩]) = (none, 0) := by
  norm_num [rspamd_chartable_process_part, partWordCount, List.foldl,
    omega_window_word, defaultCtx_threshold]

theorem mixed_window_part :
    rspamd_chartable_process_part defaultCtx
      (PartWords.utf [⟨7, true, mixedWindowUnits⟩]) =
      (some ⟨defaultCtx.symbol, 1/3, none⟩, 0) := by
  norm_num [rspamd_chartable_process_part, partWordCount, List.foldl,
    mixed_window_word, defaultCtx_threshold]

/-- Claim C1: the hostname-detection entry point iterates the URL set
and the email set and emits at most one detection with no context
label, but it inserts the result under the body symbol
(chartable_module_ctx->symbol), not under the configured url_symbol the
callback was registered with: at a message whose only URL host is
windоw.com the emitted symbol is R_MIXED_CHARSET, different from the
default url_symbol R_MIXED_CHARSET_URL. -/
theorem c1_url_callback_inserts_body_symbol :
    chartable_url_symbol_callback defaultCtx
        [⟨11, HostContent.utf mixedWindowHostUnits⟩] [] =
      some ⟨defaultCtx.symbol, 1/3, none⟩ ∧
    defaultCtx.symbol ≠ defaultCtx.urlSymbol := by
  constructor
  · norm_num [chartable_url_symbol_callback, scanHosts, scoreHost,
      mixed_window_host_word, defaultCtx_threshold]
  · decide

/-- Counterexample to claim C2: the body part whose only word is
ωindow produces no detection at all under threshold 0.1 and the default
max_word_len of 10: the word scores 0.0, because the leading Greek
character precedes any tracked Latin run (and ω is not in the
Confusable Set). -/
theorem c2_omega_window_no_detection :
    (rspamd_chartable_process_part defaultCtx
      (PartWords.utf [⟨7, true, omegaWindowUnits⟩])).1 = none := by
  rw [omega_window_part]

/-- Claim C2 as amended: a body part whose only word is ωindow emits no
detection (the word scores 0.0, the confusable character being the
first character of the word); a body part whose only word is windоw
(the Cyrillic confusable after a Latin run) emits exactly one detection
under the body symbol name with score 1/3, strictly greater than the
0.1 threshold. -/
theorem c2_body_detection_amended :
    (rspamd_chartable_process_part defaultCtx
        (PartWords.utf [⟨7, true, omegaWindowUnits⟩])).1 = none ∧
    (rspamd_chartable_process_part defaultCtx
        (PartWords.utf [⟨7, true, mixedWindowUnits⟩])).1 =
      some ⟨defaultCtx.symbol, 1/3, none⟩ ∧
    defaultCtx.threshold < 1/3 := by
  refine ⟨?_, ?_, ?_⟩
  · rw [omega_window_part]
  · rw [mixed_window_part]
  · rw [defaultCtx_threshold]
    norm_num

theorem scoreHost_le_four (ctx : ChartableCtx) (h : Host) :
    scoreHost ctx h ≤ 4 := by
  rcases hc : h.content with us | bs
  · rw [scoreHost, hc]
    exact utfBadness_le_four ctx true us
  · rw [scoreHost, hc]
    exact asciiBadness_le_four ctx true bs

theorem scanHosts_le_six (ctx : ChartableCtx) (hosts : List Host) :
    ∀ cur : Rat, cur ≤ 6 → scanHosts ctx hosts cur ≤ 6 := by
  induction hosts with
  | nil => intro cur h; exact h
  | cons h rest ih =>
    intro cur hcur
    rw [scanHosts]
    split
    · norm_num
    · apply ih
      rename_i hnot
      split
      · have h4 := scoreHost_le_four ctx h
        have h2 := not_lt.1 hnot
        linarith
      · exact hcur

theorem processPart_score_le_two (ctx : ChartableCtx) (p : PartWords)
    (d : Detection) (n : Nat)
    (h : rspamd_chartable_process_part ctx p = (some d, n)) :
    d.score ≤ 2 := by
  unfold rspamd_chartable_process_part at h
  split at h
  · simp at h
  · dsimp only at h
    split at h
    · split at h
      · rw [Prod.mk.injEq, Option.some.injEq] at h
        obtain ⟨hd, -⟩ := h
        rw [← hd]
      · simp at h
    · rename_i hnot
      split at h
      · rw [Prod.mk.injEq, Option.some.injEq] at h
        obtain ⟨hd, -⟩ := h
        rw [← hd]
        exact not_lt.1 hnot
      · simp at h

theorem subjectCheck_score_le_two (ctx : ChartableCtx)
    (words : List (List UtfChar)) (d : Detection)
    (h : subjectCheck ctx words = some d) : d.score ≤ 2 := by
  unfold subjectCheck at h
  split at h
  · simp at h
  · dsimp only at h
    split at h
    · split at h
      · rw [Option.some.injEq] at h
        rw [← h]
      · simp at h
    · rename_i hnot
      split at h
      · rw [Option.some.injEq] at h
        rw [← h]
        exact not_lt.1 hnot
      · simp at h

theorem urlCallback_score_le_six (ctx : ChartableCtx)
    (urls emails : List Host) (d : Detection)
    (h : chartable_url_symbol_callback ctx urls emails = some d) :
    d.score ≤ 6 := by
  unfold chartable_url_symbol_callback at h
  dsimp only at h
  split at h
  · rw [Option.some.injEq] at h
    rw [← h]
    exact scanHosts_le_six ctx emails _
      (scanHosts_le_six ctx urls 0 (by norm_num))
  · simp at h

/-- Counterexample to claim C3: the emitted hostname-collection sum can
exceed 2.0, because the clamp to 2.0 runs only at the top of a loop
iteration: a message whose single URL host is the 10-byte invalid-UTF-8
alternation ab 0x80 b 0x80 b 0x80 b 0x80 b scores 4.0 on the byte path,
and with no further URL and no email the final comparison and insertion
use the unclamped 4.0. -/
theorem c3_hostname_sum_exceeds_two :
    chartable_url_symbol_callback defaultCtx
        [⟨10, HostContent.bytes byteHost⟩] [] =
      some ⟨defaultCtx.symbol, 4, none⟩ ∧ ¬((4 : Rat) ≤ 2) := by
  constructor
  · norm_num [chartable_url_symbol_callback, scanHosts, scoreHost,
      byteHost_word, defaultCtx_threshold]
  · norm_num

/-- Claim C3 as amended: per-word badness never exceeds 4.0 on either
scorer; the per-part and per-subject emitted averages never exceed 2.0;
the hostname-collection running sum is clamped to 2.0 only at the top
of each loop iteration, so the emitted sum can exceed 2.0 but never
exceeds 6.0 (a sum at most 2.0 before the last processed host plus one
host badness of at most 4.0). -/
theorem c3_badness_bounds :
    (∀ (ctx : ChartableCtx) (is_url : Bool) (us : List UtfChar),
      utfBadness ctx is_url us ≤ 4) ∧
    (∀ (ctx : ChartableCtx) (is_url : Bool) (bs : List Nat),
      rspamd_chartable_process_word_ascii ctx is_url bs ≤ 4) ∧
    (∀ (ctx : ChartableCtx) (p : PartWords) (d : Detection) (n : Nat),
      rspamd_chartable_process_part ctx p = (some d, n) → d.score ≤ 2) ∧
    (∀ (ctx : ChartableCtx) (words : List (List UtfChar)) (d : Detection),
      subjectCheck ctx words = some d → d.score ≤ 2) ∧
    (∀ (ctx : ChartableCtx) (urls emails : List Host) (d : Detection),
      chartable_url_symbol_callback ctx urls emails = some d →
      d.score ≤ 6) :=
  ⟨utfBadness_le_four, asciiBadness_le_four, processPart_score_le_two,
    subjectCheck_score_le_two, urlCallback_score_le_six⟩

/-- Witness for the amended C3: the detection emitted for the part
whose only word is windоw has score at most 2, and the empty word has
badness at most 4. -/
theorem c3_badness_bounds_witness :
    (⟨defaultCtx.symbol, 1/3, none⟩ : Detection).score ≤ 2 ∧
    utfBadness defaultCtx false [] ≤ 4 :=
  ⟨c3_badness_bounds.2.2.1 defaultCtx
      (PartWords.utf [⟨7, true, mixedWindowUnits⟩]) _ 0 mixed_window_part,
    c3_badness_bounds.1 defaultCtx false []⟩

theorem foldPartUtf_fst (ctx : ChartableCtx) (ws : List UtfToken) :
    ∀ a : Rat × Nat,
      (ws.foldl (fun a w =>
        if 0 < w.len ∧ w.isText then
          (a.1 + (rspamd_chartable_process_word_utf ctx false w.units).1,
            a.2 + (rspamd_chartable_process_word_utf ctx false w.units).2)
        else a) a).1 =
      a.1 + ((ws.filter (fun w => decide (0 < w.len) && w.isText)).map
        (fun w => (rspamd_chartable_process_word_utf ctx false
          w.units).1)).sum := by
  induction ws with
  | nil => intro a; simp
  | cons w rest ih =>
    intro a
    rw [List.foldl_cons, List.filter_cons]
    by_cases hw : 0 < w.len ∧ w.isText
    · rw [if_pos hw, if_pos (by simp [hw.1, hw.2]), List.map_cons,
        List.sum_cons, ih]
      dsimp only
      ring
    · rw [if_neg hw,
        if_neg (by simp only [Bool.and_eq_true, decide_eq_true_eq]; exact hw),
        ih]

theorem foldPartAscii_fst (ctx : ChartableCtx) (ws : List ByteToken) :
    ∀ a : Rat × Nat,
      (ws.foldl (fun a w =>
        if 0 < w.bytes.length ∧ w.isText then
          (a.1 + rspamd_chartable_process_word_ascii ctx false w.bytes, a.2)
        else a) a).1 =
      a.1 + ((ws.filter
          (fun w => decide (0 < w.bytes.length) && w.isText)).map
        (fun w => rspamd_chartable_process_word_ascii ctx false
          w.bytes)).sum := by
  induction ws with
  | nil => intro a; simp
  | cons w rest ih =>
    intro a
    rw [List.foldl_cons, List.filter_cons]
    by_cases hw : 0 < w.bytes.length ∧ w.isText
    · rw [if_pos hw, if_pos (by simp [hw.1, hw.2]), List.map_cons,
        List.sum_cons, ih]
      dsimp only
      ring
    · rw [if_neg hw,
        if_neg (by simp only [Bool.and_eq_true, decide_eq_true_eq]; exact hw),
        ih]

/-- Claim C7: in the body-text aggregator, words of zero length or
without the text flag contribute nothing to the badness sum, while the
denominator of the per-part average is the count of all tokenized words
of the part; a detection is emitted exactly when the capped average
strictly exceeds the threshold, under the body symbol with no label. -/
theorem c7_part_aggregation :
    (∀ (ctx : ChartableCtx) (ws : List UtfToken), ws ≠ [] →
      (rspamd_chartable_process_part ctx (PartWords.utf ws)).1 =
        (let cur := ((ws.filter (fun w => decide (0 < w.len) &&
            w.isText)).map
            (fun w => (rspamd_chartable_process_word_utf ctx false
              w.units).1)).sum / (ws.length : Rat)
         let cur2 := if 2 < cur then 2 else cur
         if ctx.threshold < cur2 then some ⟨ctx.symbol, cur2, none⟩
         else none)) ∧
    (∀ (ctx : ChartableCtx) (ws : List ByteToken), ws ≠ [] →
      (rspamd_chartable_process_part ctx (PartWords.ascii ws)).1 =
        (let cur := ((ws.filter (fun w => decide (0 < w.bytes.length) &&
            w.isText)).map
            (fun w => rspamd_chartable_process_word_ascii ctx false
              w.bytes)).sum / (ws.length : Rat)
         let cur2 := if 2 < cur then 2 else cur
         if ctx.threshold < cur2 then some ⟨ctx.symbol, cur2, none⟩
         else none)) := by
  constructor
  · intro ctx ws hne
    unfold rspamd_chartable_process_part
    rw [if_neg (by simp [partWordCount, hne])]
    dsimp only [partWordCount]
    rw [foldPartUtf_fst ctx ws (0, 0)]
    rw [zero_add]
  · intro ctx ws hne
    unfold rspamd_chartable_process_part
    rw [if_neg (by simp [partWordCount, hne])]
    dsimp only [partWordCount]
    rw [foldPartAscii_fst ctx ws (0, 0)]
    rw [zero_add]

/-- Witness for C7: a part with the scored word windоw and a
zero-length word averages over both words (score 1/6, not 1/3) and
emits one detection. -/
theorem c7_part_aggregation_witness :
    (rspamd_chartable_process_part defaultCtx
      (PartWords.utf [⟨7, true, mixedWindowUnits⟩, ⟨0, true, []⟩])).1 =
      some ⟨defaultCtx.symbol, 1/6, none⟩ := by
  rw [c7_part_aggregation.1 defaultCtx _ (by simp)]
  norm_num [List.filter, mixed_window_word, defaultCtx_threshold]

end Chartable
